import Mathlib

/-!
# Verification of the proton-vpn-gtk-app specification claims

Shallow embedding of the parts of the repository needed by the claims:

* `scripts/versions.py`: the packaging utility (`VERSIONS_RE`, `rebuild_version`,
  `validate_date_time`, `NECESSARY_FIELDS`, `validate_versions`).
* `proton/vpn/app/gtk/app.py`: the `App` signal-connect queue.
* `proton/vpn/app/gtk/widgets/login.py`: `LoginForm`, `TwoFactorAuthForm`,
  `LoginWidget`.
* `proton/vpn/app/gtk/widgets/headerbar/menu/settings/general_settings.py`:
  the `GeneralSettings` setters.

Python strings are Lean `String`s; machine-level details (GTK rendering,
threads) are abstracted into explicit state records, keeping the control flow
and effect ordering of the source.
-/

/- ============================================================
   Python regex machinery (backtracking candidate lists)

   A matcher maps an input character list to the list of
   (matched-prefix, rest) pairs, ordered by the priority in which a
   backtracking regex engine (Python `re`) would try them: greedy
   quantifiers yield longer matches first, sequencing fixes the left
   matcher's candidate and explores the right matcher's candidates,
   alternation tries branches left to right.  `re.match` returns the
   first overall candidate.
   ============================================================ -/

/-- A match candidate: the consumed prefix and the remaining input. -/
abbrev Cand := List Char × List Char

/-- Matcher for a single character satisfying `p` (a character class). -/
def charClassM (p : Char → Bool) : List Char → List Cand
  | [] => []
  | c :: rest => if p c then [([c], rest)] else []

/-- Matcher for `.` in Python `re`: any character except a newline. -/
def dotM : List Char → List Cand :=
  charClassM (fun c => c != '\n')

/-- Matcher for a literal character. -/
def chM (c : Char) : List Char → List Cand :=
  charClassM (fun d => d == c)

/-- Greedy `+` applied to a character class: all nonempty prefixes of the
maximal run, longest first (the backtracking order of a greedy quantifier). -/
def plusM (p : Char → Bool) (s : List Char) : List Cand :=
  let n := (s.takeWhile p).length
  (List.range n).map (fun i => (s.take (n - i), s.drop (n - i)))

/-- Sequencing of two matchers, preserving backtracking priority order. -/
def seqM (m₁ m₂ : List Char → List Cand) (s : List Char) : List Cand :=
  (m₁ s).flatMap (fun c₁ => (m₂ c₁.2).map (fun c₂ => (c₁.1 ++ c₂.1, c₂.2)))

/- ============================================================
   scripts/versions.py : VERSIONS_RE and rebuild_version
   ============================================================ -/

/-- Matcher for group 1 of `VERSIONS_RE`, the pattern `[0-9]+.[0-9]+.[0-9]+`
(the dots are unescaped in the source, so they match any character). -/
def versionsREGroup1 : List Char → List Cand :=
  seqM (plusM Char.isDigit)
    (seqM dotM (seqM (plusM Char.isDigit) (seqM dotM (plusM Char.isDigit))))

/-- Matcher for group 2 of `VERSIONS_RE`, the pattern `[a-z]+[0-9]+`. -/
def versionsREGroup2 : List Char → List Cand :=
  seqM (plusM Char.isLower) (plusM Char.isDigit)

/-- `VERSIONS_RE.match(v)` / `re.match(VERSIONS_RE, v)`: prefix match of
`([0-9]+.[0-9]+.[0-9]+)([a-z]+[0-9]+)?` returning `(group 1, group 2)`,
with group 2 `none` when the optional group did not participate. -/
def VERSIONS_RE_match (v : String) : Option (String × Option String) :=
  let cands : List (List Char × Option (List Char) × List Char) :=
    (versionsREGroup1 v.data).flatMap (fun c₁ =>
      ((versionsREGroup2 c₁.2).map (fun c₂ => (c₁.1, some c₂.1, c₂.2)))
        ++ [(c₁.1, none, c₁.2)])
  cands.head?.map (fun c => (String.mk c.1, c.2.1.map String.mk))

/-- `rebuild_version(version, delim)` from `scripts/versions.py`: on a
regex match, group 1 is returned, with group 2 re-appended after `delim`
when it is truthy (a nonempty string); a failed match raises `ValueError`,
modelled as `Except.error`. -/
def rebuild_version (version : String) (delim : String) : Except String String :=
  match VERSIONS_RE_match version with
  | none => .error ("Invalid version specified " ++ version)
  | some (ver, prelease) =>
    match prelease with
    | some pre => if pre.isEmpty then .ok ver else .ok (ver ++ delim ++ pre)
    | none => .ok ver

/- ============================================================
   scripts/versions.py : validate_date_time
   (model of datetime.strptime(v, "%Y/%m/%d %H:%M"))
   ============================================================ -/

/-- Digit value of a character. -/
def digitVal (c : Char) : Nat := c.toNat - 48

/-- Characters matched by `\s` in Python `re` (ASCII subset). -/
def isPyRegexSpace (c : Char) : Bool :=
  c == ' ' || c == '\t' || c == '\n' || c == '\r' || c == '\x0b' || c == '\x0c'

/-- Numeric matcher for a two-character alternative `c₁c₂` of a strptime
directive: consumes two characters, producing their two-digit value. -/
def num2M (p₁ p₂ : Char → Bool) : List Char → List (Nat × List Char)
  | a :: b :: rest =>
    if p₁ a && p₂ b then [(digitVal a * 10 + digitVal b, rest)] else []
  | _ => []

/-- Numeric matcher for a one-character alternative of a strptime directive. -/
def num1M (p₁ : Char → Bool) : List Char → List (Nat × List Char)
  | a :: rest => if p₁ a then [(digitVal a, rest)] else []
  | _ => []

/-- `%Y`: exactly four digits (CPython `_strptime` uses `\d\d\d\d`). -/
def strpY : List Char → List (Nat × List Char)
  | a :: b :: c :: d :: rest =>
    if a.isDigit && b.isDigit && c.isDigit && d.isDigit then
      [(digitVal a * 1000 + digitVal b * 100 + digitVal c * 10 + digitVal d, rest)]
    else []
  | _ => []

/-- `%m`: CPython pattern `1[0-2]|0[1-9]|[1-9]`, alternatives in order. -/
def strpm (s : List Char) : List (Nat × List Char) :=
  num2M (· == '1') (fun c => '0' ≤ c && c ≤ '2') s
    ++ num2M (· == '0') (fun c => '1' ≤ c && c ≤ '9') s
    ++ num1M (fun c => '1' ≤ c && c ≤ '9') s

/-- `%d`: CPython pattern `3[01]|[12]\d|0[1-9]|[1-9]`. -/
def strpd (s : List Char) : List (Nat × List Char) :=
  num2M (· == '3') (fun c => c == '0' || c == '1') s
    ++ num2M (fun c => c == '1' || c == '2') Char.isDigit s
    ++ num2M (· == '0') (fun c => '1' ≤ c && c ≤ '9') s
    ++ num1M (fun c => '1' ≤ c && c ≤ '9') s

/-- `%H`: CPython pattern `2[0-3]|[0-1]\d|\d`. -/
def strpH (s : List Char) : List (Nat × List Char) :=
  num2M (· == '2') (fun c => '0' ≤ c && c ≤ '3') s
    ++ num2M (fun c => c == '0' || c == '1') Char.isDigit s
    ++ num1M Char.isDigit s

/-- `%M`: CPython pattern `[0-5]\d|\d`. -/
def strpMin (s : List Char) : List (Nat × List Char) :=
  num2M (fun c => '0' ≤ c && c ≤ '5') Char.isDigit s
    ++ num1M Char.isDigit s

/-- A literal character of the format string. -/
def strpLit (c : Char) : List Char → List (List Char)
  | a :: rest => if a == c then [rest] else []
  | _ => []

/-- Whitespace in the format string becomes `\s+` in CPython `_strptime`:
one or more whitespace characters, greedy (longest candidate first). -/
def strpSpace (s : List Char) : List (List Char) :=
  (plusM isPyRegexSpace s).map (·.2)

/-- All pattern-level match candidates of strptime format `%Y/%m/%d %H:%M`,
in engine priority order: `(year, month, day, hour, minute)` plus leftover. -/
def strptimeCands (s : List Char) : List ((Nat × Nat × Nat × Nat × Nat) × List Char) :=
  (strpY s).flatMap (fun (y, s) =>
  (strpLit '/' s).flatMap (fun s =>
  (strpm s).flatMap (fun (mo, s) =>
  (strpLit '/' s).flatMap (fun s =>
  (strpd s).flatMap (fun (d, s) =>
  (strpSpace s).flatMap (fun s =>
  (strpH s).flatMap (fun (h, s) =>
  (strpLit ':' s).flatMap (fun s =>
  (strpMin s).map (fun (mi, s) => ((y, mo, d, h, mi), s))))))))))

/-- Gregorian leap year rule (as used by `datetime`). -/
def isLeapYear (y : Nat) : Bool :=
  y % 4 == 0 && (y % 100 != 0 || y % 400 == 0)

/-- Number of days in a month (as validated by the `datetime` constructor). -/
def daysInMonth (y m : Nat) : Nat :=
  if m == 2 then (if isLeapYear y then 29 else 28)
  else if m == 4 || m == 6 || m == 9 || m == 11 then 30
  else 31

/-- `validate_date_time(v)` from `scripts/versions.py`: `True` iff
`datetime.strptime(v, "%Y/%m/%d %H:%M")` does not raise: the regex built
from the format matches a prefix of `v`, no unconverted data remains, and
the parsed fields form a valid `datetime` (year ≥ 1 = `MINYEAR`; day within
the month; month/hour/minute ranges already enforced by the directives). -/
def validate_date_time (v : String) : Bool :=
  match strptimeCands v.data with
  | [] => false
  | ((y, mo, d, _h, _mi), rest) :: _ =>
    rest.isEmpty && 1 ≤ y && d ≤ daysInMonth y mo

/- ============================================================
   scripts/versions.py : NECESSARY_FIELDS and validate_versions
   ============================================================ -/

/-- A YAML manifest value as it appears in a release dictionary: a string
or a list (of strings).  These are the value shapes the manifest uses. -/
inductive Value where
  | str (s : String)
  | strList (l : List String)
deriving DecidableEq, Repr

/-- A Python exception as raised by the validation code: `ValueError`
(raised explicitly by `validate_versions`) or `TypeError` (raised by
`re.match`/`strptime` when handed a non-string and not caught). -/
inductive PyError where
  | valueError (msg : String)
  | typeError
deriving DecidableEq, Repr

/-- Prefix match of the author regex `[a-zA-Z]+ [a-zA-Z]+`. -/
def author_re_match (s : String) : Bool :=
  (seqM (plusM Char.isAlpha) (seqM (chM ' ') (plusM Char.isAlpha)) s.data) != []

/-- Characters of the local part of the email regex: `[a-zA-Z+_\-.0-9]`. -/
def isEmailLocalChar (c : Char) : Bool :=
  c.isAlpha || c.isDigit || c == '+' || c == '_' || c == '-' || c == '.'

/-- Characters of the domain parts of the email regex: `[a-zA-Z_0-9]`. -/
def isEmailWordChar (c : Char) : Bool :=
  c.isAlpha || c.isDigit || c == '_'

/-- Prefix match of the email regex
`[a-zA-Z+_\-.0-9]+@[a-zA-Z_0-9]+\.[a-zA-Z_0-9]+`. -/
def email_re_match (s : String) : Bool :=
  (seqM (plusM isEmailLocalChar) (seqM (chM '@') (seqM (plusM isEmailWordChar)
    (seqM (chM '.') (plusM isEmailWordChar)))) s.data) != []

/-- The `version` validator: `re.match(VERSIONS_RE, v) is not None`;
`TypeError` on a non-string. -/
def validateVersionField : Value → Except PyError Bool
  | .str s => .ok (VERSIONS_RE_match s).isSome
  | .strList _ => .error .typeError

/-- The `time` validator: `validate_date_time(v)`; `strptime` raises an
uncaught `TypeError` on a non-string. -/
def validateTimeField : Value → Except PyError Bool
  | .str s => .ok (validate_date_time s)
  | .strList _ => .error .typeError

/-- The `author` validator: `re.match("[a-zA-Z]+ [a-zA-Z]+", v) is not None`. -/
def validateAuthorField : Value → Except PyError Bool
  | .str s => .ok (author_re_match s)
  | .strList _ => .error .typeError

/-- The `urgency` validator: `re.match("^(low|medium|urgent)$", v)`;
Python `$` also matches just before one trailing newline. -/
def validateUrgencyField : Value → Except PyError Bool
  | .str s => .ok (["low", "medium", "urgent"].any
      (fun o => s == o || s == o ++ "\n"))
  | .strList _ => .error .typeError

/-- The `stability` validator: `re.match("^(unstable|stable)$", v)`. -/
def validateStabilityField : Value → Except PyError Bool
  | .str s => .ok (["unstable", "stable"].any
      (fun o => s == o || s == o ++ "\n"))
  | .strList _ => .error .typeError

/-- The `description` validator:
`isinstance(v, list) and all(isinstance(i, str) for i in v)` — total. -/
def validateDescriptionField : Value → Except PyError Bool
  | .str _ => .ok false
  | .strList _ => .ok true

/-- The `email` validator: `re.match(r"[a-zA-Z+_\-.0-9]+@...", v)`. -/
def validateEmailField : Value → Except PyError Bool
  | .str s => .ok (email_re_match s)
  | .strList _ => .error .typeError

/-- The `NECESSARY_FIELDS` dictionary: recognised field names mapped to
their validators, in source order. -/
def NECESSARY_FIELDS : List (String × (Value → Except PyError Bool)) :=
  [("version", validateVersionField),
   ("time", validateTimeField),
   ("author", validateAuthorField),
   ("urgency", validateUrgencyField),
   ("stability", validateStabilityField),
   ("description", validateDescriptionField),
   ("email", validateEmailField)]

/-- A release: an insertion-ordered dictionary of field names to values. -/
abbrev Release := List (String × Value)

/-- The inner loop of `validate_versions` over one release's items:
`NECESSARY_FIELDS.get(field)` missing (falsy) raises
`ValueError("Unrecognised field ...")`; a validator returning a falsy value
raises `ValueError("... does not have correct value ...")`; a validator
raising (`TypeError`) propagates. -/
def validateRelease : Release → Except PyError Unit
  | [] => .ok ()
  | (field, value) :: rest =>
    match NECESSARY_FIELDS.lookup field with
    | none => .error (.valueError ("Unrecognised field " ++ field))
    | some validator =>
      match validator value with
      | .error e => .error e
      | .ok true => validateRelease rest
      | .ok false =>
        .error (.valueError (field ++ " does not have correct value " ++
          "or is not formatted correctly."))

/-- `validate_versions(versions)` from `scripts/versions.py`: validates
every present field of every release, raising on the first failure. -/
def validate_versions : List Release → Except PyError Unit
  | [] => .ok ()
  | release :: rest =>
    match validateRelease release with
    | .error e => .error e
    | .ok () => validate_versions rest

/-- `true` iff running the field's validator would raise `TypeError`
(used to carve out the ill-typed values the claims do not speak about). -/
def fieldTypeErrors (field : String) (value : Value) : Bool :=
  match NECESSARY_FIELDS.lookup field with
  | none => false
  | some validator =>
    match validator value with
    | .error .typeError => true
    | _ => false

/-- A release is well typed when no present field's validator raises
`TypeError` (string-valued fields hold strings). -/
def wellTypedRelease (release : Release) : Bool :=
  release.all (fun fv => !(fieldTypeErrors fv.1 fv.2))

/-- A versions list is well typed when all its releases are. -/
def wellTypedVersions (versions : List Release) : Bool :=
  versions.all wellTypedRelease

/-- `true` iff the field is recognised and its validator accepts the value. -/
def fieldPasses (field : String) (value : Value) : Bool :=
  match NECESSARY_FIELDS.lookup field with
  | none => false
  | some validator =>
    match validator value with
    | .ok true => true
    | _ => false

/-- `true` iff the field name is not a key of `NECESSARY_FIELDS`. -/
def fieldUnrecognised (field : String) : Bool :=
  (NECESSARY_FIELDS.lookup field).isNone

/-- `true` iff the value is a string rejected by `validate_date_time`. -/
def timeValueBad : Value → Bool
  | .str s => !(validate_date_time s)
  | .strList _ => false

/-- Python `str.split(sep)` with a nonempty separator, on character
lists, with an explicit fuel argument (the input length) for structural
recursion: scan left to right, cutting at each leftmost occurrence of the
separator. -/
def pySplitAux (sep : List Char) : Nat → List Char → List Char → List (List Char)
  | _, [], acc => [acc.reverse]
  | 0, s, acc => [acc.reverse ++ s]
  | fuel + 1, c :: rest, acc =>
    if sep.isPrefixOf (c :: rest) then
      acc.reverse :: pySplitAux sep fuel ((c :: rest).drop sep.length) []
    else
      pySplitAux sep fuel rest (c :: acc)

/-- Python `s.split(sep)` for a nonempty separator string. -/
def pySplitOn (s : String) (sep : String) : List String :=
  (pySplitAux sep.data s.data.length s.data []).map String.mk

/- ============================================================
   proton/vpn/app/gtk/app.py : the App signal-connect queue
   ============================================================ -/

/-- A Python object as seen by `_process_signal_connect_queue`: whether it
inherits from `GObject.Object`, and its named attributes. -/
inductive Obj where
  | mk (gobject : Bool) (attrs : List (String × Obj))

/-- Whether the object inherits from `GObject.Object`. -/
def Obj.gobject : Obj → Bool
  | .mk b _ => b

/-- The object's named attributes. -/
def Obj.attrs : Obj → List (String × Obj)
  | .mk _ a => a

/-- `getattr(obj, name)`: `none` models an `AttributeError`. -/
def getattrObj (o : Obj) (name : String) : Option Obj :=
  o.attrs.lookup name

/-- Why resolving one queued request raised: the spec did not split into
exactly two parts around `::` (unpacking `ValueError`), an attribute was
missing (`AttributeError`), or the resolved object is not a
`GObject.Object` (`AssertionError` from the `assert isinstance` check). -/
inductive ConnectError where
  | unpackError
  | attributeError
  | assertionError
deriving DecidableEq, Repr

/-- Resolving and connecting one queued request against the window, as in
the body of the loop of `App._process_signal_connect_queue`:
split the spec on `::`, follow the dotted attribute path from the window,
assert the result is a `GObject.Object`, and connect.  A successful
connection is the triple (resolved object, signal name, callback). -/
def process_one (window : Obj) (signal_spec : String) (callback : Nat) :
    Except ConnectError (Obj × String × Nat) :=
  match pySplitOn signal_spec "::" with
  | [widget_path, signal_name] =>
    match (pySplitOn widget_path ".").foldlM getattrObj window with
    | none => .error .attributeError
    | some obj =>
      if obj.gobject then .ok (obj, signal_name, callback)
      else .error .assertionError
  | _ => .error .unpackError

/-- The `App` state relevant to the queue: `self.window`,
`self._signal_connect_queue`, and the connections made so far (in the
order `connect` was called). -/
structure AppState where
  window : Option Obj
  signal_connect_queue : List (String × Nat)
  connections : List (Obj × String × Nat)

/-- `App.__init__`: no window, empty queue, nothing connected. -/
def App.initial : AppState :=
  { window := none, signal_connect_queue := [], connections := [] }

/-- `App._process_signal_connect_queue`: `for _ in range(len(queue))`,
each iteration pops the front request and resolves it; an exception
aborts the loop (the popped request is lost, the rest stay queued).
Returns the remaining queue, the connections, and the exception if any. -/
def process_signal_connect_queue (window : Obj) :
    List (String × Nat) → List (Obj × String × Nat) →
    List (String × Nat) × List (Obj × String × Nat) × Option ConnectError
  | [], conns => ([], conns, none)
  | (spec, cb) :: rest, conns =>
    match process_one window spec cb with
    | .error e => (rest, conns, some e)
    | .ok c => process_signal_connect_queue window rest (conns ++ [c])

/-- `App.queue_signal_connect(signal_spec, callback)`: append the request;
if the window already exists, process the queue instantly. -/
def queue_signal_connect (s : AppState) (signal_spec : String) (callback : Nat) :
    AppState × Option ConnectError :=
  let q := s.signal_connect_queue ++ [(signal_spec, callback)]
  match s.window with
  | none => ({ s with signal_connect_queue := q }, none)
  | some w =>
    let r := process_signal_connect_queue w q s.connections
    ({ s with signal_connect_queue := r.1, connections := r.2.1 }, r.2.2)

/-- The queue-relevant part of `App.do_activate`: on the first activation
the window is created and the pending queue is processed; later
activations leave the state alone. -/
def do_activate (s : AppState) (new_window : Obj) : AppState × Option ConnectError :=
  match s.window with
  | none =>
    let r := process_signal_connect_queue new_window s.signal_connect_queue s.connections
    ({ window := some new_window, signal_connect_queue := r.1, connections := r.2.1 }, r.2.2)
  | some _ => (s, none)

/-- The connection `process_one` would make, if it succeeds. -/
def connect_result (w : Obj) (r : String × Nat) : Option (Obj × String × Nat) :=
  match process_one w r.1 r.2 with
  | .ok c => some c
  | .error _ => none

/-- Queue a list of requests in order, starting from `App.__init__`,
before any window exists. -/
def queueAll (reqs : List (String × Nat)) : AppState :=
  reqs.foldl (fun s r => (queue_signal_connect s r.1 r.2).1) App.initial

/- ============================================================
   proton/vpn/app/gtk/widgets/login.py : LoginForm
   ============================================================ -/

/-- Characters stripped by Python `str.strip()` (ASCII whitespace). -/
def isPyStripSpace (c : Char) : Bool :=
  c == ' ' || c == '\t' || c == '\n' || c == '\r' || c == '\x0b' || c == '\x0c'

/-- Python `s.strip()`: remove leading and trailing whitespace. -/
def pyStrip (s : String) : String :=
  String.mk (((s.data.dropWhile isPyStripSpace).reverse.dropWhile
    isPyStripSpace).reverse)

/-- Signals a `LoginForm` can emit. -/
inductive LoginFormSignal where
  | userAuthenticated (two_factor_auth_required : Bool)
  | loginError
deriving DecidableEq, Repr

/-- The observable state of a `LoginForm`: the error label text, the two
entry texts, the login button's `sensitive` property, the spinner, the
signals emitted so far, and the `Controller.login` calls made so far
(username/password pairs, in call order). -/
structure LoginFormState where
  error_message : String
  username : String
  password : String
  login_button_sensitive : Bool
  login_spinner_active : Bool
  emitted : List LoginFormSignal
  login_calls : List (String × String)
deriving DecidableEq, Repr

/-- `LoginForm._on_entry_changed`: the login button is sensitive iff both
stripped entry texts are nonempty. -/
def LoginForm.on_entry_changed (s : LoginFormState) : LoginFormState :=
  let is_username_provided := (pyStrip s.username).length > 0
  let is_password_provided := (pyStrip s.password).length > 0
  { s with login_button_sensitive := is_username_provided && is_password_provided }

/-- Setting the username entry text; GTK fires the `changed` signal, whose
handler is `_on_entry_changed`. -/
def LoginForm.set_username (s : LoginFormState) (t : String) : LoginFormState :=
  LoginForm.on_entry_changed { s with username := t }

/-- Setting the password entry text; fires `changed` similarly. -/
def LoginForm.set_password (s : LoginFormState) (t : String) : LoginFormState :=
  LoginForm.on_entry_changed { s with password := t }

/-- `LoginForm.reset`: clear the error message, the username and the
password (the two `set_text` calls each fire `changed`). -/
def LoginForm.reset (s : LoginFormState) : LoginFormState :=
  LoginForm.set_password
    (LoginForm.set_username { s with error_message := "" } "") ""

/-- `LoginForm.__init__`: empty entries, error label `""`, button made
insensitive, spinner stopped, then `self.reset()`. -/
def LoginForm.initial : LoginFormState :=
  LoginForm.reset
    { error_message := "", username := "", password := "",
      login_button_sensitive := false, login_spinner_active := false,
      emitted := [], login_calls := [] }

/-- `LoginForm._on_login_button_clicked`: start the spinner and call
`Controller.login(self.username, self.password)` (the future's callback
is delivered later by `on_login_result`). -/
def LoginForm.on_login_button_clicked (s : LoginFormState) : LoginFormState :=
  { s with login_spinner_active := true,
           login_calls := s.login_calls ++ [(s.username, s.password)] }

/-- `LoginForm._on_press_enter`: do nothing unless the login button is
sensitive; otherwise click it. -/
def LoginForm.on_press_enter (s : LoginFormState) : LoginFormState :=
  if !s.login_button_sensitive then s
  else LoginForm.on_login_button_clicked s

/-- Outcome of the `Controller.login` future as observed by
`LoginForm._on_login_result`: a result record, or `future.result()`
raising `ValueError`. -/
inductive LoginOutcome where
  | ok (authenticated : Bool) (twofa_required : Bool)
  | valueError
deriving DecidableEq, Repr

/-- `LoginForm._on_login_result` (form-level view, without the widget
wiring): on `ValueError` set the error message to `"Invalid username."`,
emit `login-error`, and stop the spinner (the `finally` clause runs
before the `return` completes); otherwise stop the spinner, then either
emit `user-authenticated` and reset, or show `"Wrong credentials."` and
emit `login-error`. -/
def LoginForm.on_login_result (s : LoginFormState) (res : LoginOutcome) :
    LoginFormState :=
  match res with
  | .valueError =>
    let s := { s with error_message := "Invalid username." }
    let s := { s with emitted := s.emitted ++ [LoginFormSignal.loginError] }
    { s with login_spinner_active := false }
  | .ok authenticated twofa_required =>
    let s := { s with login_spinner_active := false }
    if authenticated then
      LoginForm.reset
        { s with emitted :=
            s.emitted ++ [LoginFormSignal.userAuthenticated twofa_required] }
    else
      let s := { s with error_message := "Wrong credentials." }
      { s with emitted := s.emitted ++ [LoginFormSignal.loginError] }

/-- User-interface events a `LoginForm` reacts to. -/
inductive LoginFormEvent where
  | usernameChanged (t : String)
  | passwordChanged (t : String)
  | pressEnter
deriving DecidableEq, Repr

/-- One event step of the login form. -/
def LoginForm.step (s : LoginFormState) : LoginFormEvent → LoginFormState
  | .usernameChanged t => LoginForm.set_username s t
  | .passwordChanged t => LoginForm.set_password s t
  | .pressEnter => LoginForm.on_press_enter s

/-- Run an event sequence from the freshly constructed form. -/
def LoginForm.run (evs : List LoginFormEvent) : LoginFormState :=
  evs.foldl LoginForm.step LoginForm.initial

/- ============================================================
   proton/vpn/app/gtk/widgets/login.py : TwoFactorAuthForm, LoginWidget
   ============================================================ -/

/-- Signals a `TwoFactorAuthForm` can emit. -/
inductive TwoFAFormSignal where
  | twoFactorAuthSuccessful
  | sessionExpired
deriving DecidableEq, Repr

/-- The observable state of a `TwoFactorAuthForm`. -/
structure TwoFactorAuthFormState where
  error_message : String
  two_factor_auth_code : String
  twofa_spinner_active : Bool
  emitted : List TwoFAFormSignal
  submit_2fa_calls : List String
deriving DecidableEq, Repr

/-- `TwoFactorAuthForm.reset`: clear the error message and the code entry. -/
def TwoFactorAuthForm.reset (s : TwoFactorAuthFormState) : TwoFactorAuthFormState :=
  { s with error_message := "", two_factor_auth_code := "" }

/-- `TwoFactorAuthForm.__init__` final state (ends with `self.reset()`). -/
def TwoFactorAuthForm.initial : TwoFactorAuthFormState :=
  TwoFactorAuthForm.reset
    { error_message := "", two_factor_auth_code := "",
      twofa_spinner_active := false, emitted := [], submit_2fa_calls := [] }

/-- The two forms stacked inside the `LoginWidget` (a `Gtk.Stack`). -/
inductive FormId where
  | loginForm
  | twoFactorAuthForm
deriving DecidableEq, Repr

/-- Signals a `LoginWidget` can emit. -/
inductive LoginWidgetSignal where
  | userLoggedIn
deriving DecidableEq, Repr

/-- The observable state of a `LoginWidget`: its two child forms,
`self.active_form` (initially `None`), the stack's visible child (the
first child added, the login form), and the emitted signals. -/
structure LoginWidgetState where
  login_form : LoginFormState
  two_factor_auth_form : TwoFactorAuthFormState
  active_form : Option FormId
  visible_child : FormId
  emitted : List LoginWidgetSignal
deriving DecidableEq, Repr

/-- `LoginWidget.__init__` final state. -/
def LoginWidget.initial : LoginWidgetState :=
  { login_form := LoginForm.initial,
    two_factor_auth_form := TwoFactorAuthForm.initial,
    active_form := none, visible_child := FormId.loginForm, emitted := [] }

/-- `LoginWidget.display_form(form)`: record the active form, make it the
stack's visible child, and reset it. -/
def LoginWidget.display_form (w : LoginWidgetState) (form : FormId) :
    LoginWidgetState :=
  let w := { w with active_form := some form, visible_child := form }
  match form with
  | .loginForm => { w with login_form := LoginForm.reset w.login_form }
  | .twoFactorAuthForm =>
    { w with two_factor_auth_form := TwoFactorAuthForm.reset w.two_factor_auth_form }

/-- `LoginWidget._on_user_authenticated(two_factor_auth_required)`:
without 2FA, emit `user-logged-in`; with 2FA, display the 2FA form. -/
def LoginWidget.on_user_authenticated (w : LoginWidgetState)
    (two_factor_auth_required : Bool) : LoginWidgetState :=
  if !two_factor_auth_required then
    { w with emitted := w.emitted ++ [LoginWidgetSignal.userLoggedIn] }
  else
    LoginWidget.display_form w FormId.twoFactorAuthForm

/-- `LoginWidget._on_session_expired_during_2fa`: display the login form. -/
def LoginWidget.on_session_expired_during_2fa (w : LoginWidgetState) :
    LoginWidgetState :=
  LoginWidget.display_form w FormId.loginForm

/-- A login-future result processed at the widget level, with the
`user-authenticated` signal wired as `LoginWidget.__init__` wires it:
GTK signal emission is synchronous, so inside
`LoginForm._signal_user_authenticated` the widget handler runs after the
`emit` and before `LoginForm.reset`. -/
def LoginWidget.process_login_result (w : LoginWidgetState) (res : LoginOutcome) :
    LoginWidgetState :=
  match res with
  | .ok true twofa_required =>
    let lf := { w.login_form with login_spinner_active := false }
    let lf := { lf with emitted :=
      lf.emitted ++ [LoginFormSignal.userAuthenticated twofa_required] }
    let w := { w with login_form := lf }
    let w := LoginWidget.on_user_authenticated w twofa_required
    { w with login_form := LoginForm.reset w.login_form }
  | _ => { w with login_form := LoginForm.on_login_result w.login_form res }

/-- A 2FA-future result processed at the widget level
(`TwoFactorAuthForm._on_2fa_submission_result` with the widget's
`session-expired` and `two-factor-auth-successful` handlers wired in):
first the `finally` stops the spinner; `authenticated == False` sets the
session-expired message and emits `session-expired` (the widget displays
the login form, which resets it); a wrong code sets its message; success
emits `two-factor-auth-successful` (the widget emits `user-logged-in`)
and then resets the 2FA form. -/
def LoginWidget.process_2fa_result (w : LoginWidgetState)
    (authenticated twofa_required : Bool) : LoginWidgetState :=
  let tf := { w.two_factor_auth_form with twofa_spinner_active := false }
  if !authenticated then
    let tf := { tf with error_message := "Session expired. Please login again." }
    let tf := { tf with emitted := tf.emitted ++ [TwoFAFormSignal.sessionExpired] }
    let w := { w with two_factor_auth_form := tf }
    LoginWidget.on_session_expired_during_2fa w
  else if twofa_required then
    let tf := { tf with error_message := "Wrong 2FA code." }
    { w with two_factor_auth_form := tf }
  else
    let tf := { tf with emitted :=
      tf.emitted ++ [TwoFAFormSignal.twoFactorAuthSuccessful] }
    let w := { w with two_factor_auth_form := tf }
    let w := { w with emitted := w.emitted ++ [LoginWidgetSignal.userLoggedIn] }
    { w with two_factor_auth_form := TwoFactorAuthForm.reset w.two_factor_auth_form }

/- ============================================================
   widgets/headerbar/menu/settings/general_settings.py
   ============================================================ -/

/-- The external `AppConfiguration` record.  Modelled from the spec: the
class itself lives in the backend library, outside this repository; the
spec's data model describes it as a small record with fields
`connect_at_app_startup` (optional server code) and `tray_pinned_servers`
(list of server codes). -/
structure AppConfiguration where
  connect_at_app_startup : Option String
  tray_pinned_servers : List String
deriving DecidableEq, Repr

/-- The `connect_at_app_startup` property setter of `GeneralSettings`:
read the full configuration from the controller, mutate the one field,
and assign the whole object back (returned here as the configuration
written back to `controller.app_configuration`). -/
def GeneralSettings.set_connect_at_app_startup
    (app_configuration : AppConfiguration) (newvalue : Option String) :
    AppConfiguration :=
  { app_configuration with connect_at_app_startup := newvalue }

/-- The parsing loop of the `tray_pinned_servers` setter: split on commas,
strip and uppercase each part, keep the truthy (nonempty) ones. -/
def cleanedPinnedServers (newvalue : String) : List String :=
  (pySplitOn newvalue ",").foldl
    (fun server_list pinned_server =>
      let cleaned_pinned_server := (pyStrip pinned_server).toUpper
      if cleaned_pinned_server.length > 0 then
        server_list ++ [cleaned_pinned_server]
      else server_list)
    []

/-- The `tray_pinned_servers` property setter of `GeneralSettings`: read
the full configuration, replace the one field with the cleaned list, and
assign the whole object back. -/
def GeneralSettings.set_tray_pinned_servers
    (app_configuration : AppConfiguration) (newvalue : String) :
    AppConfiguration :=
  { app_configuration with tray_pinned_servers := cleanedPinnedServers newvalue }

/- ============================================================
   Theorems
   ============================================================ -/

/-- C9: each settings setter (`connect_at_app_startup`,
`tray_pinned_servers`) reads the full configuration object, mutates
exactly one field, and assigns the whole object back: the written-back
configuration differs from the one read only in the mutated field, and
every other field equals the field of the configuration that was read. -/
theorem GeneralSettings.setters_mutate_one_field (app_configuration : AppConfiguration)
    (newstartup : Option String) (newpinned : String) :
    (GeneralSettings.set_connect_at_app_startup app_configuration newstartup).connect_at_app_startup
        = newstartup ∧
    (GeneralSettings.set_connect_at_app_startup app_configuration newstartup).tray_pinned_servers
        = app_configuration.tray_pinned_servers ∧
    (GeneralSettings.set_tray_pinned_servers app_configuration newpinned).tray_pinned_servers
        = cleanedPinnedServers newpinned ∧
    (GeneralSettings.set_tray_pinned_servers app_configuration newpinned).connect_at_app_startup
        = app_configuration.connect_at_app_startup := by
  refine ⟨rfl, rfl, rfl, rfl⟩

/-- C2 counterexample: submitting a malformed username DOES contact the
controller.  Clicking the login button with username `"bad user"` records
a `Controller.login("bad user", "pw")` call, and the `"Invalid username."`
error with the `login-error` emission only arises afterwards, when that
call's future raises `ValueError` — refuting the claim that
`Controller.login` is not called for such a submission. -/
theorem LoginForm.malformed_username_calls_controller :
    (LoginForm.on_login_button_clicked
        (LoginForm.set_password (LoginForm.set_username LoginForm.initial "bad user") "pw")).login_calls
      = [("bad user", "pw")] ∧
    (LoginForm.on_login_result
        (LoginForm.on_login_button_clicked
          (LoginForm.set_password (LoginForm.set_username LoginForm.initial "bad user") "pw"))
        LoginOutcome.valueError).error_message = "Invalid username." ∧
    (LoginForm.on_login_result
        (LoginForm.on_login_button_clicked
          (LoginForm.set_password (LoginForm.set_username LoginForm.initial "bad user") "pw"))
        LoginOutcome.valueError).emitted = [LoginFormSignal.loginError] ∧
    ¬ (LoginForm.on_login_button_clicked
        (LoginForm.set_password (LoginForm.set_username LoginForm.initial "bad user") "pw")).login_calls
      = [] := by
  refine ⟨rfl, rfl, rfl, by decide⟩

/-- C2 (amended): every login submission calls `Controller.login` with the
entered username and password; when the submitted username is malformed,
that call's future raises `ValueError`, and only then does the form set
the error message `"Invalid username."`, emit `login-error`, and stop the
spinner — the validation error is surfaced inline, but the controller is
always contacted. -/
theorem LoginForm.invalid_username_error_after_controller_call (s : LoginFormState) :
    (LoginForm.on_login_button_clicked s).login_calls
        = s.login_calls ++ [(s.username, s.password)] ∧
    (LoginForm.on_login_result s LoginOutcome.valueError).error_message
        = "Invalid username." ∧
    (LoginForm.on_login_result s LoginOutcome.valueError).emitted
        = s.emitted ++ [LoginFormSignal.loginError] ∧
    (LoginForm.on_login_result s LoginOutcome.valueError).login_calls
        = s.login_calls ∧
    (LoginForm.on_login_result s LoginOutcome.valueError).login_spinner_active
        = false := by
  refine ⟨rfl, rfl, rfl, rfl, rfl⟩

/-- C4: for a login result with `authenticated = True`: without 2FA the
widget emits `user-logged-in` and neither the visible child, the active
form, nor the 2FA form change (the 2FA form is not shown); with 2FA
required the 2FA form becomes the visible active form with its error
message and code entry cleared (and no `user-logged-in` is emitted). -/
theorem LoginWidget.authenticated_login_result (w : LoginWidgetState) :
    ((LoginWidget.process_login_result w (LoginOutcome.ok true false)).emitted
        = w.emitted ++ [LoginWidgetSignal.userLoggedIn] ∧
     (LoginWidget.process_login_result w (LoginOutcome.ok true false)).visible_child
        = w.visible_child ∧
     (LoginWidget.process_login_result w (LoginOutcome.ok true false)).active_form
        = w.active_form ∧
     (LoginWidget.process_login_result w (LoginOutcome.ok true false)).two_factor_auth_form
        = w.two_factor_auth_form) ∧
    ((LoginWidget.process_login_result w (LoginOutcome.ok true true)).active_form
        = some FormId.twoFactorAuthForm ∧
     (LoginWidget.process_login_result w (LoginOutcome.ok true true)).visible_child
        = FormId.twoFactorAuthForm ∧
     (LoginWidget.process_login_result w (LoginOutcome.ok true true)).two_factor_auth_form.error_message
        = "" ∧
     (LoginWidget.process_login_result w (LoginOutcome.ok true true)).two_factor_auth_form.two_factor_auth_code
        = "" ∧
     (LoginWidget.process_login_result w (LoginOutcome.ok true true)).emitted
        = w.emitted) := by
  constructor
  · refine ⟨rfl, rfl, rfl, rfl⟩
  · refine ⟨rfl, rfl, rfl, rfl, rfl⟩

/-- C5: for a 2FA submission result with `authenticated = False`, the
`session-expired` signal is emitted, the login form becomes the visible
active form, and its username, password and error message are cleared. -/
theorem LoginWidget.session_expired_returns_to_login (w : LoginWidgetState)
    (twofa_required : Bool) :
    (LoginWidget.process_2fa_result w false twofa_required).two_factor_auth_form.emitted
        = w.two_factor_auth_form.emitted ++ [TwoFAFormSignal.sessionExpired] ∧
    (LoginWidget.process_2fa_result w false twofa_required).active_form
        = some FormId.loginForm ∧
    (LoginWidget.process_2fa_result w false twofa_required).visible_child
        = FormId.loginForm ∧
    (LoginWidget.process_2fa_result w false twofa_required).login_form.username = "" ∧
    (LoginWidget.process_2fa_result w false twofa_required).login_form.password = "" ∧
    (LoginWidget.process_2fa_result w false twofa_required).login_form.error_message = "" := by
  refine ⟨rfl, rfl, rfl, rfl, rfl, rfl⟩

/-- The login button's `sensitive` property always equals the conjunction
"both stripped entry texts are nonempty" after any event sequence: this is
what `_on_entry_changed` establishes, and no other handler touches it. -/
theorem LoginForm.sensitive_invariant (evs : List LoginFormEvent) :
    (LoginForm.run evs).login_button_sensitive
      = ((pyStrip (LoginForm.run evs).username).length > 0
          && (pyStrip (LoginForm.run evs).password).length > 0) := by
  suffices h : ∀ (s : LoginFormState),
      s.login_button_sensitive
        = ((pyStrip s.username).length > 0 && (pyStrip s.password).length > 0) →
      (evs.foldl LoginForm.step s).login_button_sensitive
        = ((pyStrip (evs.foldl LoginForm.step s).username).length > 0
            && (pyStrip (evs.foldl LoginForm.step s).password).length > 0) by
    exact h LoginForm.initial rfl
  induction evs with
  | nil => intro s hs; exact hs
  | cons e rest ih =>
    intro s hs
    refine ih (LoginForm.step s e) ?_
    cases e with
    | usernameChanged t => rfl
    | passwordChanged t => rfl
    | pressEnter =>
      cases hb : s.login_button_sensitive <;>
        simpa [LoginForm.step, LoginForm.on_press_enter,
          LoginForm.on_login_button_clicked, hb] using hs

/-- C3: for every state of the login form reachable by a sequence of entry
edits and Enter presses, if the username or the password text is empty or
whitespace-only, the login button is not enabled: it starts disabled, every
`changed` update keeps it disabled unless both stripped texts are nonempty,
and pressing Enter while it is disabled is a no-op (no submission). -/
theorem LoginForm.empty_entries_never_submit (evs : List LoginFormEvent)
    (h : pyStrip (LoginForm.run evs).username = ""
        ∨ pyStrip (LoginForm.run evs).password = "") :
    LoginForm.initial.login_button_sensitive = false ∧
    (LoginForm.run evs).login_button_sensitive = false ∧
    LoginForm.on_press_enter (LoginForm.run evs) = LoginForm.run evs := by
  have hinv := LoginForm.sensitive_invariant evs
  have hfalse : (LoginForm.run evs).login_button_sensitive = false := by
    rcases h with h | h <;> simp [hinv, h]
  refine ⟨rfl, hfalse, ?_⟩
  unfold LoginForm.on_press_enter
  simp [hfalse]

/-- C3 witness: after typing a username and a whitespace-only password,
the stripped password is empty, the login button is disabled, and Enter
does not submit. -/
theorem LoginForm.empty_entries_never_submit_witness :
    (pyStrip (LoginForm.run [LoginFormEvent.usernameChanged "proton",
        LoginFormEvent.passwordChanged "  "]).password = "") ∧
    (LoginForm.run [LoginFormEvent.usernameChanged "proton",
        LoginFormEvent.passwordChanged "  "]).login_button_sensitive = false ∧
    LoginForm.on_press_enter (LoginForm.run [LoginFormEvent.usernameChanged "proton",
        LoginFormEvent.passwordChanged "  "])
      = LoginForm.run [LoginFormEvent.usernameChanged "proton",
        LoginFormEvent.passwordChanged "  "] :=
  ⟨by decide,
   (LoginForm.empty_entries_never_submit
      [LoginFormEvent.usernameChanged "proton", LoginFormEvent.passwordChanged "  "]
      (Or.inr (by decide))).2.1,
   (LoginForm.empty_entries_never_submit
      [LoginFormEvent.usernameChanged "proton", LoginFormEvent.passwordChanged "  "]
      (Or.inr (by decide))).2.2⟩

/-- The `takeWhile` prefix is never longer than the list. -/
theorem takeWhile_length_le (p : Char → Bool) (l : List Char) :
    (l.takeWhile p).length ≤ l.length := by
  induction l with
  | nil => simp [List.takeWhile]
  | cons a as ih =>
    simp only [List.takeWhile]
    cases p a
    · simp
    · simpa using ih

/-- Every candidate produced by a greedy `+` consumed at least one
character. -/
theorem plusM_fst_ne_nil {p : Char → Bool} {s : List Char} {c : Cand}
    (hc : c ∈ plusM p s) : c.1 ≠ [] := by
  unfold plusM at hc
  simp only [List.mem_map, List.mem_range] at hc
  obtain ⟨i, hi, rfl⟩ := hc
  have hle := takeWhile_length_le p s
  intro hnil
  have hlen := congrArg List.length hnil
  simp only [List.length_take, List.length_nil] at hlen
  omega

/-- Membership in a sequenced matcher decomposes into memberships in the
two parts. -/
theorem seqM_mem {m₁ m₂ : List Char → List Cand} {s : List Char} {c : Cand}
    (hc : c ∈ seqM m₁ m₂ s) :
    ∃ c₁, c₁ ∈ m₁ s ∧ ∃ c₂, c₂ ∈ m₂ c₁.2 ∧ c = (c₁.1 ++ c₂.1, c₂.2) := by
  unfold seqM at hc
  simp only [List.mem_flatMap, List.mem_map] at hc
  obtain ⟨c₁, h₁, c₂, h₂, rfl⟩ := hc
  exact ⟨c₁, h₁, c₂, h₂, rfl⟩

/-- Group 2 of `VERSIONS_RE` (`[a-z]+[0-9]+`) never matches the empty
string. -/
theorem versionsREGroup2_fst_ne_nil {s : List Char} {c : Cand}
    (hc : c ∈ versionsREGroup2 s) : c.1 ≠ [] := by
  obtain ⟨c₁, h₁, c₂, h₂, rfl⟩ := seqM_mem hc
  have h := plusM_fst_ne_nil h₁
  intro hnil
  rw [List.append_eq_nil] at hnil
  exact h hnil.1

/-- When `VERSIONS_RE` matched with a participating group 2, that group's
text is a nonempty (hence truthy) string. -/
theorem head_mem_of_head_eq_some {α : Type} {l : List α} {a : α}
    (h : l.head? = some a) : a ∈ l := by
  cases l with
  | nil => exact absurd h (by simp)
  | cons d rest =>
    simp only [List.head?_cons, Option.some.injEq] at h
    rw [← h]
    exact List.mem_cons_self d rest

theorem VERSIONS_RE_match_group2_truthy {v g₁ g₂ : String}
    (h : VERSIONS_RE_match v = some (g₁, some g₂)) : g₂.isEmpty = false := by
  have hcands : VERSIONS_RE_match v =
      ((versionsREGroup1 v.data).flatMap (fun c₁ =>
        ((versionsREGroup2 c₁.2).map (fun c₂ => (c₁.1, some c₂.1, c₂.2)))
          ++ [(c₁.1, none, c₁.2)])).head?.map
        (fun c => (String.mk c.1, c.2.1.map String.mk)) := rfl
  rw [hcands] at h
  cases hhead :
      ((versionsREGroup1 v.data).flatMap (fun c₁ =>
        ((versionsREGroup2 c₁.2).map (fun c₂ => (c₁.1, some c₂.1, c₂.2)))
          ++ [(c₁.1, none, c₁.2)])).head? with
  | none => rw [hhead] at h; exact absurd h (by simp)
  | some c =>
    rw [hhead] at h
    simp only [Option.map_some'] at h
    injection h with h
    have hsnd : c.2.1.map String.mk = some g₂ := congrArg Prod.snd h
    have hcmem := head_mem_of_head_eq_some hhead
    simp only [List.mem_flatMap, List.mem_append, List.mem_map,
      List.mem_singleton] at hcmem
    obtain ⟨c₁, _hc₁, hin⟩ := hcmem
    cases hin with
    | inl hmap =>
      obtain ⟨c₂, hc₂, rfl⟩ := hmap
      have hne := versionsREGroup2_fst_ne_nil hc₂
      simp only [Option.map_some', Option.some.injEq] at hsnd
      rw [← hsnd]
      rw [Bool.eq_false_iff]
      intro hq
      have h₂ := (String.isEmpty_iff _).mp hq
      exact hne (congrArg String.data h₂)
    | inr hone =>
      rw [hone] at hsnd
      exact absurd hsnd (by simp)

/-- C6: `rebuild_version("4.5.6rc1", "~")` returns `"4.5.6~rc1"` and
`rebuild_version("4.5.6", "~")` returns `"4.5.6"`; in general, whenever
the version matches `VERSIONS_RE` with groups `(g₁, p)`, the result
re-inserts the pre-release suffix after the release part separated by the
given delimiter when there is one (`g₁ ++ delim ++ pre`), and is the
release part `g₁` unchanged when there is none. -/
theorem rebuild_version_spec (v g₁ delim : String) (p : Option String)
    (h : VERSIONS_RE_match v = some (g₁, p)) :
    rebuild_version "4.5.6rc1" "~" = .ok "4.5.6~rc1" ∧
    rebuild_version "4.5.6" "~" = .ok "4.5.6" ∧
    rebuild_version v delim =
      .ok (match p with
           | some pre => g₁ ++ delim ++ pre
           | none => g₁) := by
  refine ⟨rfl, rfl, ?_⟩
  cases p with
  | none => simp [rebuild_version, h]
  | some pre =>
    have hne : pre.isEmpty = false := VERSIONS_RE_match_group2_truthy h
    simp [rebuild_version, h, hne]

/-- C6 witness: concrete evaluations, with and without a pre-release
suffix, obtained from the general theorem. -/
theorem rebuild_version_spec_witness :
    VERSIONS_RE_match "1.2.3b4" = some ("1.2.3", some "b4") ∧
    rebuild_version "1.2.3b4" "-" = .ok ("1.2.3" ++ "-" ++ "b4") ∧
    VERSIONS_RE_match "7.8.9" = some ("7.8.9", none) ∧
    rebuild_version "7.8.9" "~" = .ok "7.8.9" :=
  ⟨rfl, (rebuild_version_spec "1.2.3b4" "1.2.3" "-" (some "b4") rfl).2.2,
   rfl, (rebuild_version_spec "7.8.9" "7.8.9" "~" none rfl).2.2⟩

/-- Queueing requests before any window exists only accumulates them, in
FIFO order, without connecting anything. -/
theorem queueAll_pending (reqs : List (String × Nat)) :
    queueAll reqs = { window := none, signal_connect_queue := reqs,
                      connections := [] } := by
  suffices h : ∀ (q : List (String × Nat)) (conns : List (Obj × String × Nat)),
      reqs.foldl (fun s r => (queue_signal_connect s r.1 r.2).1)
        { window := none, signal_connect_queue := q, connections := conns }
      = { window := none, signal_connect_queue := q ++ reqs, connections := conns } by
    simpa using h [] []
  induction reqs with
  | nil => intro q conns; simp
  | cons r rest ih =>
    intro q conns
    rw [List.foldl_cons]
    show rest.foldl _ (queue_signal_connect
      { window := none, signal_connect_queue := q, connections := conns } r.1 r.2).1 = _
    rw [queue_signal_connect]
    simp only []
    rw [ih (q ++ [r]) conns]
    simp

/-- Processing a queue whose every request resolves connects them all, in
order, appending exactly their connections and leaving the queue empty. -/
theorem process_queue_all_ok (w : Obj) (queue : List (String × Nat))
    (hall : ∀ r ∈ queue, ∃ c, process_one w r.1 r.2 = .ok c) :
    ∀ conns, process_signal_connect_queue w queue conns
      = ([], conns ++ queue.filterMap (connect_result w), none) := by
  induction queue with
  | nil => intro conns; simp [process_signal_connect_queue]
  | cons r rest ih =>
    intro conns
    obtain ⟨c, hc⟩ := hall r (List.mem_cons_self r rest)
    obtain ⟨spec, cb⟩ := r
    rw [process_signal_connect_queue, hc]
    show process_signal_connect_queue w rest (conns ++ [c]) = _
    rw [ih (fun r hr => hall r (List.mem_cons_of_mem _ hr)) (conns ++ [c])]
    have hcr : connect_result w (spec, cb) = some c := by
      rw [connect_result, hc]
    rw [List.filterMap_cons, hcr]
    simp

/-- A `filterMap` that never drops an element preserves the length. -/
theorem filterMap_length_of_all_some {α β : Type} (f : α → Option β)
    (l : List α) (h : ∀ a ∈ l, (f a).isSome) :
    (l.filterMap f).length = l.length := by
  induction l with
  | nil => rfl
  | cons a rest ih =>
    have ha := h a (List.mem_cons_self a rest)
    rw [List.filterMap_cons]
    cases hfa : f a with
    | none => rw [hfa] at ha; exact absurd ha (by simp)
    | some b => simpa using ih (fun x hx => h x (List.mem_cons_of_mem _ hx))

/-- C1: every signal-connect request queued via `queue_signal_connect`
before the main window is created is connected exactly once, in FIFO
submission order, when the queue is processed at window creation
(`do_activate`): nothing is connected beforehand, afterwards the queue is
empty and the connections list is exactly the requests' resolutions in
submission order (one connection per request), a second activation
changes nothing, and any request made after the window exists is
connected synchronously by the `queue_signal_connect` call itself. -/
theorem App.queue_signal_connect_fifo (reqs : List (String × Nat)) (w : Obj)
    (hall : ∀ r ∈ reqs, ∃ c, process_one w r.1 r.2 = .ok c) :
    (queueAll reqs).connections = [] ∧
    do_activate (queueAll reqs) w
      = ({ window := some w, signal_connect_queue := [],
           connections := reqs.filterMap (connect_result w) }, none) ∧
    (reqs.filterMap (connect_result w)).length = reqs.length ∧
    do_activate (do_activate (queueAll reqs) w).1 w
      = ((do_activate (queueAll reqs) w).1, none) ∧
    (∀ spec cb c, process_one w spec cb = .ok c →
      queue_signal_connect (do_activate (queueAll reqs) w).1 spec cb
        = ({ window := some w, signal_connect_queue := [],
             connections := reqs.filterMap (connect_result w) ++ [c] }, none)) := by
  have hq := queueAll_pending reqs
  have hp := process_queue_all_ok w reqs hall []
  have hact : do_activate (queueAll reqs) w
      = ({ window := some w, signal_connect_queue := [],
           connections := reqs.filterMap (connect_result w) }, none) := by
    rw [hq]
    show (({ window := some w,
             signal_connect_queue := (process_signal_connect_queue w reqs []).1,
             connections := (process_signal_connect_queue w reqs []).2.1 } : AppState),
          (process_signal_connect_queue w reqs []).2.2)
        = _
    rw [hp]
    simp
  refine ⟨by rw [hq], hact, ?_, ?_, ?_⟩
  · exact filterMap_length_of_all_some (connect_result w) reqs
      (fun r hr => by
        obtain ⟨c, hc⟩ := hall r hr
        rw [connect_result, hc]
        rfl)
  · rw [hact]
    rfl
  · intro spec cb c hc
    rw [hact]
    show (({ window := some w,
             signal_connect_queue :=
               (process_signal_connect_queue w ([] ++ [(spec, cb)])
                 (reqs.filterMap (connect_result w))).1,
             connections :=
               (process_signal_connect_queue w ([] ++ [(spec, cb)])
                 (reqs.filterMap (connect_result w))).2.1 } : AppState),
          (process_signal_connect_queue w ([] ++ [(spec, cb)])
            (reqs.filterMap (connect_result w))).2.2)
        = _
    have hone : process_signal_connect_queue w [(spec, cb)]
        (reqs.filterMap (connect_result w))
        = ([], reqs.filterMap (connect_result w) ++ [c], none) := by
      rw [process_signal_connect_queue, hc]
      show process_signal_connect_queue w []
        (reqs.filterMap (connect_result w) ++ [c]) = _
      rw [process_signal_connect_queue]
    rw [List.nil_append, hone]

/-- C1 witness: two requests queued before window creation are both
connected at activation, in order, and nothing was connected before. -/
theorem App.queue_signal_connect_fifo_witness :
    (queueAll [("main_widget::app-ready", 1),
        ("main_widget.vpn_widget::server-list-ready", 2)]).connections = [] ∧
    do_activate
        (queueAll [("main_widget::app-ready", 1),
          ("main_widget.vpn_widget::server-list-ready", 2)])
        (Obj.mk true [("main_widget", Obj.mk true [("vpn_widget", Obj.mk true [])])])
      = ({ window := some (Obj.mk true
              [("main_widget", Obj.mk true [("vpn_widget", Obj.mk true [])])]),
           signal_connect_queue := [],
           connections :=
             ([("main_widget::app-ready", 1),
               ("main_widget.vpn_widget::server-list-ready", 2)].filterMap
               (connect_result (Obj.mk true
                 [("main_widget", Obj.mk true [("vpn_widget", Obj.mk true [])])]))) },
         none) ∧
    ([("main_widget::app-ready", 1),
      ("main_widget.vpn_widget::server-list-ready", 2)].filterMap
      (connect_result (Obj.mk true
        [("main_widget", Obj.mk true [("vpn_widget", Obj.mk true [])])]))).length
      = 2 := by
  have h := App.queue_signal_connect_fifo
    [("main_widget::app-ready", 1), ("main_widget.vpn_widget::server-list-ready", 2)]
    (Obj.mk true [("main_widget", Obj.mk true [("vpn_widget", Obj.mk true [])])])
    (by
      intro r hr
      simp only [List.mem_cons, List.not_mem_nil, or_false] at hr
      rcases hr with rfl | rfl
      · exact ⟨_, rfl⟩
      · exact ⟨_, rfl⟩)
  exact ⟨h.1, h.2.1, h.2.2.1⟩

/-- C8: when a queued request's dotted attribute path resolves to an
object that is not a `GObject.Object`, processing it raises
`AssertionError` and makes no connection for that request: the request is
consumed, the error propagates, and the connections list is untouched —
also when the request is submitted after the window exists, in which case
`queue_signal_connect` itself raises and connects nothing. -/
theorem App.non_gobject_resolution_asserts (w : Obj)
    (spec widget_path signal_name : String) (cb : Nat) (o : Obj)
    (hsplit : pySplitOn spec "::" = [widget_path, signal_name])
    (hres : (pySplitOn widget_path ".").foldlM getattrObj w = some o)
    (hno : o.gobject = false) :
    process_one w spec cb = .error .assertionError ∧
    (∀ rest conns, process_signal_connect_queue w ((spec, cb) :: rest) conns
        = (rest, conns, some .assertionError)) ∧
    (∀ s : AppState, s.window = some w → s.signal_connect_queue = [] →
      (queue_signal_connect s spec cb).1.connections = s.connections ∧
      (queue_signal_connect s spec cb).1.signal_connect_queue = [] ∧
      (queue_signal_connect s spec cb).2 = some .assertionError) := by
  have hpo : process_one w spec cb = .error .assertionError := by
    rw [process_one, hsplit]
    simp only []
    rw [hres]
    simp [hno]
  have hstep : ∀ conns, process_signal_connect_queue w [(spec, cb)] conns
      = ([], conns, some ConnectError.assertionError) := by
    intro conns
    rw [process_signal_connect_queue, hpo]
  refine ⟨hpo, ?_, ?_⟩
  · intro rest conns
    rw [process_signal_connect_queue, hpo]
  · intro s hw hqe
    have hq2 : queue_signal_connect s spec cb
        = ({ s with signal_connect_queue := [] }, some ConnectError.assertionError) := by
      rw [queue_signal_connect]
      simp only [hw, hqe, List.nil_append, hstep]
    rw [hq2]
    exact ⟨rfl, rfl, rfl⟩

/-- C8 witness: a request addressing an attribute that is not a
`GObject.Object` raises `AssertionError` and connects nothing, both when
processed and when submitted with the window present. -/
theorem App.non_gobject_resolution_asserts_witness :
    process_one (Obj.mk true [("plain_label", Obj.mk false [])])
        "plain_label::clicked" 7 = .error .assertionError ∧
    (queue_signal_connect
        { window := some (Obj.mk true [("plain_label", Obj.mk false [])]),
          signal_connect_queue := [], connections := [] }
        "plain_label::clicked" 7).1.connections = [] ∧
    (queue_signal_connect
        { window := some (Obj.mk true [("plain_label", Obj.mk false [])]),
          signal_connect_queue := [], connections := [] }
        "plain_label::clicked" 7).2 = some .assertionError := by
  have h := App.non_gobject_resolution_asserts
    (Obj.mk true [("plain_label", Obj.mk false [])])
    "plain_label::clicked" "plain_label" "clicked" 7 (Obj.mk false [])
    (by decide) rfl rfl
  exact ⟨h.1, (h.2.2 _ rfl rfl).1, (h.2.2 _ rfl rfl).2.2⟩

/-- Every validator stored in `NECESSARY_FIELDS` either returns a boolean
or raises `TypeError`; none raises `ValueError` itself. -/
theorem validator_shape (f : String) (val : Value → Except PyError Bool)
    (h : NECESSARY_FIELDS.lookup f = some val) (v : Value) :
    (∃ b, val v = .ok b) ∨ val v = .error .typeError := by
  simp only [NECESSARY_FIELDS, List.lookup] at h
  repeat' split at h
  all_goals first
    | exact absurd h.symm (Option.some_ne_none val)
    | (injection h with h; subst h)
  all_goals
    (cases v <;>
      simp [validateVersionField, validateTimeField, validateAuthorField,
        validateUrgencyField, validateStabilityField, validateDescriptionField,
        validateEmailField])

/-- If every present field of a release passes its validator, the inner
validation loop completes without raising. -/
theorem validateRelease_ok_of_all_pass (r : Release)
    (h : ∀ fv ∈ r, fieldPasses fv.1 fv.2 = true) :
    validateRelease r = .ok () := by
  induction r with
  | nil => rfl
  | cons fv rest ih =>
    obtain ⟨f, v⟩ := fv
    have hf := h (f, v) (List.mem_cons_self _ _)
    unfold fieldPasses at hf
    rw [validateRelease]
    cases hlk : NECESSARY_FIELDS.lookup f with
    | none => rw [hlk] at hf; simp at hf
    | some val =>
      rw [hlk] at hf
      replace hf : (match val v with
          | Except.ok true => true
          | _ => false) = true := hf
      cases hval : val v with
      | error e => rw [hval] at hf; simp at hf
      | ok b =>
        rw [hval] at hf
        cases b with
        | false => simp at hf
        | true =>
          simp only [hlk, hval]
          exact ih (fun x hx => h x (List.mem_cons_of_mem _ hx))

/-- On a well-typed release the inner loop either completes or raises a
`ValueError` (never a `TypeError`). -/
theorem validateRelease_shape (r : Release) (hwt : wellTypedRelease r = true) :
    validateRelease r = .ok () ∨
    ∃ msg, validateRelease r = .error (.valueError msg) := by
  induction r with
  | nil => exact Or.inl rfl
  | cons fv rest ih =>
    obtain ⟨f, v⟩ := fv
    simp only [wellTypedRelease, List.all_cons, Bool.and_eq_true,
      Bool.not_eq_true'] at hwt
    rw [validateRelease]
    cases hlk : NECESSARY_FIELDS.lookup f with
    | none =>
      simp only [hlk]
      exact Or.inr ⟨_, rfl⟩
    | some val =>
      rcases validator_shape f val hlk v with ⟨b, hval⟩ | hval
      · cases b with
        | true =>
          simp only [hlk, hval]
          exact ih hwt.2
        | false =>
          simp only [hlk, hval]
          exact Or.inr ⟨_, rfl⟩
      · exfalso
        have hte : fieldTypeErrors f v = true := by
          simp only [fieldTypeErrors, hlk, hval]
        rw [hte] at hwt
        exact absurd hwt.1 (by simp)

/-- On a well-typed release containing a field that does not pass
(unrecognised, or rejected by its validator), the inner loop raises a
`ValueError`. -/
theorem validateRelease_error_of_bad (r : Release)
    (hwt : wellTypedRelease r = true)
    (hbad : ∃ fv ∈ r, fieldPasses fv.1 fv.2 = false) :
    ∃ msg, validateRelease r = .error (.valueError msg) := by
  induction r with
  | nil =>
    obtain ⟨fv, hfv, _⟩ := hbad
    exact absurd hfv (List.not_mem_nil fv)
  | cons fv rest ih =>
    obtain ⟨f, v⟩ := fv
    simp only [wellTypedRelease, List.all_cons, Bool.and_eq_true,
      Bool.not_eq_true'] at hwt
    rw [validateRelease]
    cases hlk : NECESSARY_FIELDS.lookup f with
    | none =>
      simp only [hlk]
      exact ⟨_, rfl⟩
    | some val =>
      rcases validator_shape f val hlk v with ⟨b, hval⟩ | hval
      · cases b with
        | false =>
          simp only [hlk, hval]
          exact ⟨_, rfl⟩
        | true =>
          simp only [hlk, hval]
          apply ih hwt.2
          obtain ⟨fv', hmem, hfail⟩ := hbad
          rcases List.mem_cons.mp hmem with heq | hrest
          · exfalso
            have hpass : fieldPasses f v = true := by
              simp only [fieldPasses, hlk, hval]
            rw [heq] at hfail
            rw [hfail] at hpass
            exact absurd hpass (by simp)
          · exact ⟨fv', hrest, hfail⟩
      · exfalso
        have hte : fieldTypeErrors f v = true := by
          simp only [fieldTypeErrors, hlk, hval]
        rw [hte] at hwt
        exact absurd hwt.1 (by simp)

/-- If every present field of every release passes, `validate_versions`
returns without raising. -/
theorem validate_versions_ok_of_all_pass (versions : List Release)
    (h : ∀ r ∈ versions, ∀ fv ∈ r, fieldPasses fv.1 fv.2 = true) :
    validate_versions versions = .ok () := by
  induction versions with
  | nil => rfl
  | cons r rest ih =>
    rw [validate_versions,
      validateRelease_ok_of_all_pass r (h r (List.mem_cons_self _ _))]
    exact ih (fun x hx => h x (List.mem_cons_of_mem _ hx))

/-- On well-typed versions containing a failing field somewhere,
`validate_versions` raises a `ValueError`. -/
theorem validate_versions_error_of_bad (versions : List Release)
    (hwt : wellTypedVersions versions = true)
    (hbad : ∃ r ∈ versions, ∃ fv ∈ r, fieldPasses fv.1 fv.2 = false) :
    ∃ msg, validate_versions versions = .error (.valueError msg) := by
  induction versions with
  | nil =>
    obtain ⟨r, hr, _⟩ := hbad
    exact absurd hr (List.not_mem_nil r)
  | cons r rest ih =>
    simp only [wellTypedVersions, List.all_cons, Bool.and_eq_true] at hwt
    obtain ⟨r', hmem, hfail⟩ := hbad
    rcases List.mem_cons.mp hmem with heq | hrest
    · subst heq
      obtain ⟨msg, hmsg⟩ := validateRelease_error_of_bad r' hwt.1 hfail
      exact ⟨msg, by rw [validate_versions, hmsg]⟩
    · rcases validateRelease_shape r hwt.1 with hok | ⟨msg, hmsg⟩
      · obtain ⟨msg, hmsg⟩ := ih hwt.2 ⟨r', hrest, hfail⟩
        refine ⟨msg, ?_⟩
        rw [validate_versions, hok]
        exact hmsg
      · exact ⟨msg, by rw [validate_versions, hmsg]⟩

/-- C7: over well-typed manifests (string-valued fields hold strings, so
no validator raises an uncaught `TypeError`), `validate_versions` raises a
`ValueError` whenever some release contains a field name outside the
recognized set, and whenever some release's `time` field is a string
rejected by `validate_date_time` (the `%Y/%m/%d %H:%M` strptime check);
and when every present field of every release passes its validator, it
returns without raising. -/
theorem validate_versions_field_validation (versions : List Release) :
    (wellTypedVersions versions = true →
      ((versions.any fun r => r.any fun fv => fieldUnrecognised fv.1) = true →
        ∃ msg, validate_versions versions = .error (.valueError msg)) ∧
      ((versions.any fun r =>
          r.any fun fv => fv.1 == "time" && timeValueBad fv.2) = true →
        ∃ msg, validate_versions versions = .error (.valueError msg))) ∧
    ((versions.all fun r => r.all fun fv => fieldPasses fv.1 fv.2) = true →
      validate_versions versions = .ok ()) := by
  refine ⟨fun hwt => ⟨fun hany => ?_, fun hany => ?_⟩, fun hall => ?_⟩
  · apply validate_versions_error_of_bad versions hwt
    simp only [List.any_eq_true] at hany
    obtain ⟨r, hr, fv, hfv, hbadf⟩ := hany
    refine ⟨r, hr, fv, hfv, ?_⟩
    unfold fieldUnrecognised at hbadf
    rw [Option.isNone_iff_eq_none] at hbadf
    simp only [fieldPasses, hbadf]
  · apply validate_versions_error_of_bad versions hwt
    simp only [List.any_eq_true, Bool.and_eq_true] at hany
    obtain ⟨r, hr, fv, hfv, htime, hbadv⟩ := hany
    refine ⟨r, hr, fv, hfv, ?_⟩
    have hf : fv.1 = "time" := eq_of_beq htime
    cases hv : fv.2 with
    | str s =>
      rw [hv] at hbadv
      unfold timeValueBad at hbadv
      rw [Bool.not_eq_true'] at hbadv
      rw [hf]
      have hlk : NECESSARY_FIELDS.lookup "time" = some validateTimeField := rfl
      simp only [fieldPasses, hlk, validateTimeField, hbadv]
    | strList l =>
      rw [hv] at hbadv
      unfold timeValueBad at hbadv
      exact absurd hbadv (by simp)
  · apply validate_versions_ok_of_all_pass
    simp only [List.all_eq_true] at hall
    exact hall

/-- C7 witness: a release with an unrecognised field raises, a release
whose time field is not in `%Y/%m/%d %H:%M` format raises, and a manifest
whose present fields all validate passes. -/
theorem validate_versions_field_validation_witness :
    (∃ msg, validate_versions
        [[("version", Value.str "1.2.3"), ("nonsense", Value.str "x")]]
      = .error (.valueError msg)) ∧
    (∃ msg, validate_versions [[("time", Value.str "2023-01-15 10:30")]]
      = .error (.valueError msg)) ∧
    validate_versions
        [[("version", Value.str "4.5.6rc1"), ("urgency", Value.str "medium")]]
      = .ok () :=
  ⟨((validate_versions_field_validation
      [[("version", Value.str "1.2.3"), ("nonsense", Value.str "x")]]).1
      (by decide)).1 (by decide),
   ((validate_versions_field_validation
      [[("time", Value.str "2023-01-15 10:30")]]).1
      (by decide)).2 (by decide),
   (validate_versions_field_validation
      [[("version", Value.str "4.5.6rc1"), ("urgency", Value.str "medium")]]).2
      (by decide)⟩

/-- C10: `validate_versions` only validates the fields that are present:
missing "necessary" fields are never reported as errors.  Any manifest
whose present fields all pass validates, regardless of which recognized
fields its releases omit; in particular a release consisting of the empty
dictionary always passes. -/
theorem validate_versions_skips_missing_fields (versions : List Release)
    (h : (versions.all fun r => r.all fun fv => fieldPasses fv.1 fv.2) = true) :
    validate_versions versions = .ok () ∧
    validate_versions [([] : Release)] = .ok () := by
  constructor
  · apply validate_versions_ok_of_all_pass
    simp only [List.all_eq_true] at h
    exact h
  · rfl

/-- C10 witness: a manifest made of a release carrying only a `version`
field (six recognized fields omitted) and of an empty release passes. -/
theorem validate_versions_skips_missing_fields_witness :
    validate_versions [[("version", Value.str "1.2.3")], ([] : Release)] = .ok () ∧
    validate_versions [([] : Release)] = .ok () :=
  validate_versions_skips_missing_fields
    [[("version", Value.str "1.2.3")], ([] : Release)] (by decide)
